import Mathlib

/-!
Shallow embedding of the boardgame.io client module
(src/client/client.js): the action vocabulary, the log middleware,
the transport middleware, the subscription mechanism, dispatcher
creation, transport selection in the constructor, and the getState
view projection. Definitions follow the JavaScript source; theorems
settle the specification claims about it.
-/

namespace BGClient

/-- A log entry as produced by the reducer: a record tagged with a
monotonically increasing stateID assigned by the authority. The
JavaScript field is named with a leading underscore. -/
structure LogEntry where
  _stateID : Int
  action : String
deriving DecidableEq, Repr

/-- The ctx portion of the reducer state inspected by this layer:
the current player and the optional gameover marker. -/
structure Ctx where
  currentPlayer : String
  gameover : Option String
deriving DecidableEq, Repr

/-- The reducer state held in the redux store: domain state G
(abstract, modelled as Nat), ctx, and the deltalog emitted by the
most
recent action application. -/
structure StoreState where
  G : Nat
  ctx : Ctx
  deltalog : List LogEntry
deriving DecidableEq, Repr

/-- The action vocabulary dispatched through the middleware
pipeline, mirroring the action creators consumed by client.js. -/
inductive ClientAction where
  | makeMove (type : String) (args : List String)
      (playerID : Option String) (credentials : Option String)
  | gameEvent (type : String) (args : List String)
      (playerID : Option String) (credentials : Option String)
  | reset
  | undo
  | redo
  | update (deltalog : Option (List LogEntry))
  | sync (log : Option (List LogEntry))
deriving DecidableEq, Repr

/-- One step of LogMiddleware (client.js lines 162-204): given the
client log, the dispatched action, and the store state read after
the reducer ran, produce the new client log. MAKE_MOVE and
GAME_EVENT append the freshly emitted deltalog; RESET clears the
log; UPDATE appends the pushed deltalog filtered to entries whose
stateID exceeds that of the last held entry (sentinel -1 when the
log is empty); SYNC replaces the log wholesale; other actions leave
it untouched. -/
def logMiddlewareStep (log : List LogEntry) (action : ClientAction)
    (state : StoreState) : List LogEntry :=
  match action with
  | .makeMove _ _ _ _ => log ++ state.deltalog
  | .gameEvent _ _ _ _ => log ++ state.deltalog
  | .reset => []
  | .update deltalog =>
      let id : Int :=
        match log.getLast? with
        | some last => last._stateID
        | none => -1
      let dl := (deltalog.getD []).filter (fun l => l._stateID > id)
      log ++ dl
  | .sync l => l.getD []
  | .undo => log
  | .redo => log

/-- A sequence of UPDATE deliveries folded through the log
middleware, in delivery order. -/
def applyUpdateDeliveries (st : StoreState) (log : List LogEntry)
    (deliveries : List (Option (List LogEntry))) : List LogEntry :=
  deliveries.foldl (fun lg dl => logMiddlewareStep lg (.update dl) st) log

/-- Strictly increasing stateID order, the shape of any
authority-produced log fragment. -/
abbrev logSorted (log : List LogEntry) : Prop :=
  log.Pairwise (fun a b => a._stateID < b._stateID)

/-- The multiplayer configuration shapes reaching the constructor:
the literal true, or an options object with local, server and
transport fields (an absent field is none or false). The whole
option being absent (undefined) is modelled by Option.none at the
use sites. -/
inductive MultiplayerSpec where
  | boolTrue
  | spec (localFlag : Bool) (server : Option String) (transportGiven : Bool)
deriving DecidableEq, Repr

/-- Lines 260-262: multiplayer === true is replaced by an object
whose server field is the empty string before the shape tests. -/
def normalizeMultiplayer : MultiplayerSpec → Bool × Option String × Bool
  | .boolTrue => (false, some (""), false)
  | .spec l s t => (l, s, t)

/-- A LocalMaster instance: id models the reference identity of the
allocation, config the game reference stored on it (line 267). -/
structure LocalMasterInst where
  id : Nat
  config : Nat
deriving DecidableEq, Repr

/-- Lines 264-269: the module-level localMaster_ slot is reused when
it already holds an instance whose config is reference-equal to the
game argument; otherwise a fresh LocalMaster is allocated and
stored in the slot. Object references are modelled as Nat tags and
freshId tags the new allocation. Returns the master handed to the
Local transport and the new slot value. -/
def setupLocalMaster (localMaster_ : Option LocalMasterInst)
    (game : Nat) (freshId : Nat) :
    LocalMasterInst × Option LocalMasterInst :=
  match localMaster_ with
  | none =>
      let m : LocalMasterInst := { id := freshId, config := game }
      (m, some m)
  | some m =>
      if m.config ≠ game then
        let m2 : LocalMasterInst := { id := freshId, config := game }
        (m2, some m2)
      else
        (m, some m)

/-- The transport variants a constructed client can end up with. -/
inductive TransportKind where
  | defaultNoop
  | localTransport (master : LocalMasterInst)
  | socket (server : String)
  | custom
deriving DecidableEq, Repr

/-- Lines 249-299: transport selection in the constructor. The
default transport is the no-op stub; a defined multiplayer option
selects the local transport (sharing the module-level LocalMaster),
the socket transport, or a caller-supplied transport class, and any
other shape logs an error string and leaves the default transport
in place. Returns the chosen transport, the new module-level
localMaster_ slot, and the list of errors reported. -/
def selectTransport (multiplayer : Option MultiplayerSpec)
    (localMaster_ : Option LocalMasterInst) (game : Nat) (freshId : Nat) :
    TransportKind × Option LocalMasterInst × List String :=
  match multiplayer with
  | none => (.defaultNoop, localMaster_, [])
  | some mp =>
      match normalizeMultiplayer mp with
      | (localFlag, server, transportGiven) =>
          if localFlag = true then
            let (m, slot) := setupLocalMaster localMaster_ game freshId
            (.localTransport m, slot, [])
          else
            match server with
            | some srv => (.socket srv, localMaster_, [])
            | none =>
                if transportGiven = true then
                  (.custom, localMaster_, [])
                else
                  (.defaultNoop, localMaster_, ["invalid multiplayer spec"])

/-- The flow part of the rule-engine contract: enabled event names
and the active-player predicate. -/
structure GameFlow where
  enabledEventNames : List String
  isPlayerActive : Nat → Ctx → Option String → Bool

/-- The rule-engine contract consumed by the client: move names,
flow, and the playerView information-hiding projection (G is
modelled as Nat). -/
structure GameModel where
  name : String
  moveNames : List String
  flow : GameFlow
  playerView : Nat → Ctx → Option String → Nat

/-- The binding captured by a dispatcher set built by
createDispatchers: the operation names plus the playerID,
credentials and multiplayer values closed over. -/
structure DispatcherSet where
  names : List String
  playerID : Option String
  credentials : Option String
  multiplayer : Option MultiplayerSpec
deriving DecidableEq, Repr

/-- Calls made on the transport by the client facade, recorded as a
trace. -/
inductive TransportOp where
  | updatePlayerID (playerID : Option String)
  | updateGameID (gameID : Option String)
  | subscribeCallbackRegistered
deriving DecidableEq, Repr

/-- The _ClientImpl fields relevant to the claims: identity, the
multiplayer option, the store state, the client log, the two
dispatcher sets, the subscription chain, a trace of transport
calls, and the transport connection flag. The subscription callback
chain is modelled as the list of registered listener labels in
invocation order: the base callback is a no-op (empty list) and
each subscribe wraps the previous chain, so invoking the chain
calls the labels in list order. -/
structure ClientModel where
  game : GameModel
  playerID : Option String
  gameID : Option String
  credentials : Option String
  multiplayer : Option MultiplayerSpec
  storeState : Option StoreState
  log : List LogEntry
  moves : DispatcherSet
  events : DispatcherSet
  subscribeCallback : List Nat
  transportOps : List TransportOp
  transportIsConnected : Bool

/-- The snapshot returned by getState: the store state fields plus
isActive, the redacted G, the client log and the transport
connection flag. -/
structure ClientSnapshot where
  G : Nat
  ctx : Ctx
  deltalog : List LogEntry
  isActive : Bool
  log : List LogEntry
  isConnected : Bool
deriving DecidableEq, Repr

/-- getState method (lines 350-397): none while the store state is
null (pending first sync); otherwise computes isActive by the three
sequential tests of the source (multiplayer and predicate false;
single-player with a bound playerID and predicate false; gameover
set), applies the playerView redaction to G, and combines the
snapshot with the client log and the transport connection flag. -/
def getState (c : ClientModel) : Option ClientSnapshot :=
  match c.storeState with
  | none => none
  | some state =>
      let isPlayerActive :=
        c.game.flow.isPlayerActive state.G state.ctx c.playerID
      let isActive0 := true
      let isActive1 :=
        if c.multiplayer ≠ none ∧ isPlayerActive = false then false
        else isActive0
      let isActive2 :=
        if c.multiplayer = none ∧ c.playerID ≠ none ∧ isPlayerActive = false
        then false else isActive1
      let isActive :=
        if state.ctx.gameover ≠ none then false else isActive2
      let G := c.game.playerView state.G state.ctx c.playerID
      some { G := G, ctx := state.ctx, deltalog := state.deltalog,
             isActive := isActive, log := c.log,
             isConnected := c.transportIsConnected }

/-- createDispatchers method (lines 403-419): rebuilds the moves and
events dispatcher sets bound to the current playerID, credentials
and multiplayer values. -/
def createDispatchersOn (c : ClientModel) : ClientModel :=
  { c with
    moves := { names := c.game.moveNames, playerID := c.playerID,
               credentials := c.credentials, multiplayer := c.multiplayer },
    events := { names := c.game.flow.enabledEventNames,
                playerID := c.playerID, credentials := c.credentials,
                multiplayer := c.multiplayer } }

/-- updatePlayerID method (lines 421-425): stores the new playerID,
rebuilds the dispatchers, and calls transport.updatePlayerID. -/
def updatePlayerID (c : ClientModel) (playerID : Option String) :
    ClientModel :=
  let c1 := createDispatchersOn { c with playerID := playerID }
  { c1 with transportOps := c1.transportOps ++ [.updatePlayerID playerID] }

/-- updateGameID method (lines 427-431): stores the new gameID,
rebuilds the dispatchers, and calls transport.updateGameID. -/
def updateGameID (c : ClientModel) (gameID : Option String) :
    ClientModel :=
  let c1 := createDispatchersOn { c with gameID := gameID }
  { c1 with transportOps := c1.transportOps ++ [.updateGameID gameID] }

/-- updateCredentials method (lines 433-436): stores the new
credentials and rebuilds the dispatchers; no transport call. -/
def updateCredentials (c : ClientModel) (credentials : Option String) :
    ClientModel :=
  createDispatchersOn { c with credentials := credentials }

/-- Invoking a subscription chain: each registered listener is
called in order and receives the snapshot getState() returns at
that moment (the state does not change during the invocation). -/
def invokeChain (chain : List Nat) (snap : Option ClientSnapshot) :
    List (Nat × Option ClientSnapshot) :=
  chain.map (fun l => (l, snap))

/-- subscribe method (lines 328-348): wraps the previous callback
chain with the new listener (old chain first, then fn applied to
getState()), registers the chain with the transport, invokes the
new chain once synchronously, and returns an unsubscribe handle
that restores the chain captured before this registration. Returns
the updated client, the trace of listener invocations performed
synchronously before subscribe returns, and the handle. -/
def subscribe (c : ClientModel) (fn : Nat) :
    ClientModel × List (Nat × Option ClientSnapshot) ×
      (ClientModel → ClientModel) :=
  let prev := c.subscribeCallback
  let callback := prev ++ [fn]
  let c1 := { c with
    subscribeCallback := callback,
    transportOps := c.transportOps ++ [.subscribeCallbackRegistered] }
  (c1, invokeChain callback (getState c1),
   fun cur => { cur with subscribeCallback := prev })

/-- The two store-action kinds bound by createDispatchers. -/
inductive StoreActionType where
  | makeMove
  | gameEvent
deriving DecidableEq, Repr

/-- The body of one dispatcher created by createDispatchers (lines
36-58): called with the store state read at call time, it resolves
the acting playerID — in single-player mode with no bound playerID
the current player is read fresh from the store — and constructs
the makeMove or gameEvent action with the bound credentials. -/
def dispatcherCall (storeActionType : StoreActionType) (name : String)
    (args : List String) (storeStateNow : StoreState)
    (playerID : Option String) (credentials : Option String)
    (multiplayer : Option MultiplayerSpec) : ClientAction :=
  let assumedPlayerID :=
    if multiplayer = none ∧ playerID = none
    then some storeStateNow.ctx.currentPlayer
    else playerID
  match storeActionType with
  | .makeMove => .makeMove name args assumedPlayerID credentials
  | .gameEvent => .gameEvent name args assumedPlayerID credentials

/-- The playerID carried by a constructed move or event action. -/
def actionPlayerID : ClientAction → Option String
  | .makeMove _ _ p _ => p
  | .gameEvent _ _ p _ => p
  | _ => none

/-- A dispatched action together with its clientOnly flag (the flag
is a property of the action object in the source). -/
structure DispatchedAction where
  clientOnly : Bool
  action : ClientAction
deriving DecidableEq, Repr

/-- One step of TransportMiddleware (lines 210-219): captures the
store state before the inner dispatch runs, runs it, and calls
transport.onAction(baseState, action) unless the action is flagged
clientOnly; the inner result is returned unchanged. The next
argument is the rest of the dispatch pipeline, returning the new
store state and the dispatch result; onAction calls are recorded as
a trace. -/
def TransportMiddlewareStep {R : Type}
    (onActionCalls : List (StoreState × DispatchedAction))
    (next : StoreState → DispatchedAction → StoreState × R)
    (s : StoreState) (action : DispatchedAction) :
    (StoreState × R) × List (StoreState × DispatchedAction) :=
  let baseState := s
  let result := next s action
  let calls :=
    if action.clientOnly ≠ true then onActionCalls ++ [(baseState, action)]
    else onActionCalls
  (result, calls)

/-- The constructor (lines 87-308) restricted to the effects the
claims are about: the identity fields are stored, the log starts
empty, the transport is selected from the multiplayer option
(updating the module-level localMaster_ slot and logging an error
on an unrecognized shape), and createDispatchers runs at the end.
Construction is a total function: errors are reported in the
returned list, never thrown. -/
structure ConstructedClient where
  playerID : Option String
  gameID : Option String
  credentials : Option String
  multiplayer : Option MultiplayerSpec
  log : List LogEntry
  transport : TransportKind
  errors : List String
  dispatchersCreated : Bool
deriving DecidableEq, Repr

def constructClient (gameID playerID credentials : Option String)
    (multiplayer : Option MultiplayerSpec)
    (localMaster_ : Option LocalMasterInst) (game : Nat) (freshId : Nat) :
    ConstructedClient × Option LocalMasterInst :=
  let (transport, slot, errors) :=
    selectTransport multiplayer localMaster_ game freshId
  ({ playerID := playerID, gameID := gameID, credentials := credentials,
     multiplayer := multiplayer, log := [], transport := transport,
     errors := errors, dispatchersCreated := true }, slot)

/-- A concrete store state with current player 0 and no gameover. -/
def sampleStore : StoreState :=
  { G := 0, ctx := { currentPlayer := "0", gameover := none },
    deltalog := [] }

/-- A concrete store state with current player 1 and no gameover. -/
def sampleStore1 : StoreState :=
  { G := 0, ctx := { currentPlayer := "1", gameover := none },
    deltalog := [] }

/-- A concrete store state whose ctx carries a gameover marker. -/
def sampleStoreOver : StoreState :=
  { G := 0, ctx := { currentPlayer := "0", gameover := some "0" },
    deltalog := [] }

/-- A concrete rule-engine contract: one move, one event, the
active-player predicate holding exactly for the current player, and
an identity playerView. -/
def sampleGame : GameModel :=
  { name := "sample", moveNames := ["draw"],
    flow := { enabledEventNames := ["endTurn"],
              isPlayerActive := fun _ ctx p => p == some ctx.currentPlayer },
    playerView := fun g _ _ => g }

/-- An empty dispatcher binding. -/
def emptyDispatcherSet : DispatcherSet :=
  { names := [], playerID := none, credentials := none,
    multiplayer := none }

/-- A concrete single-player client with no bound playerID. -/
def baseClient : ClientModel :=
  { game := sampleGame, playerID := none, gameID := none,
    credentials := none, multiplayer := none,
    storeState := some sampleStore, log := [],
    moves := emptyDispatcherSet, events := emptyDispatcherSet,
    subscribeCallback := [], transportOps := [],
    transportIsConnected := true }

/-- A concrete client log whose last entry has stateID 2. -/
def sampleLog : List LogEntry := [{ _stateID := 2, action := "m" }]

/-- Two UPDATE deliveries pushing the same deltalog twice. -/
def sampleDeliveries : List (Option (List LogEntry)) :=
  [some [{ _stateID := 3, action := "n" }],
   some [{ _stateID := 3, action := "n" }]]

end BGClient

namespace BGClient

theorem mem_of_getLast?_eq {α : Type} {l : List α} {a : α}
    (h : l.getLast? = some a) : a ∈ l := by
  induction l with
  | nil => simp at h
  | cons x t ih =>
      cases t with
      | nil =>
          simp only [List.getLast?_singleton, Option.some.injEq] at h
          subst h
          exact List.mem_singleton_self x
      | cons y t' =>
          rw [List.getLast?_cons_cons] at h
          exact List.mem_cons_of_mem x (ih h)

theorem stateID_le_getLast {log : List LogEntry} {last : LogEntry}
    (h : logSorted log) (hl : log.getLast? = some last) :
    ∀ e ∈ log, e._stateID ≤ last._stateID := by
  induction log with
  | nil => simp at hl
  | cons a t ih =>
      cases t with
      | nil =>
          simp only [List.getLast?_singleton, Option.some.injEq] at hl
          subst hl
          intro e he
          simp only [List.mem_singleton] at he
          subst he
          exact le_refl _
      | cons b t' =>
          rw [List.getLast?_cons_cons] at hl
          have ht : logSorted (b :: t') := h.of_cons
          intro e he
          rcases List.mem_cons.mp he with rfl | he'
          · have hmem : last ∈ b :: t' := mem_of_getLast?_eq hl
            have hrel := List.rel_of_pairwise_cons h hmem
            exact le_of_lt hrel
          · exact ih ht hl e he'

theorem updateStep_sorted (st : StoreState) (log : List LogEntry)
    (dl : Option (List LogEntry))
    (hlog : logSorted log) (hdl : logSorted (dl.getD [])) :
    logSorted (logMiddlewareStep log (.update dl) st) := by
  show logSorted (log ++ (dl.getD []).filter
    (fun l => l._stateID >
      (match log.getLast? with
       | some last => last._stateID
       | none => -1)))
  unfold logSorted
  rw [List.pairwise_append]
  refine ⟨hlog, hdl.filter _, ?_⟩
  intro a ha b hb
  have hbp := List.of_mem_filter hb
  have hbgt := of_decide_eq_true hbp
  cases hcase : log.getLast? with
  | none =>
      have : log = [] := List.getLast?_eq_none_iff.mp hcase
      subst this
      simp at ha
  | some last =>
      have hle := stateID_le_getLast hlog hcase a ha
      rw [hcase] at hbgt
      exact lt_of_le_of_lt hle hbgt

theorem applyUpdateDeliveries_sorted (st : StoreState)
    (log : List LogEntry) (deliveries : List (Option (List LogEntry)))
    (hlog : logSorted log)
    (hdel : ∀ dl ∈ deliveries, logSorted (dl.getD [])) :
    logSorted (applyUpdateDeliveries st log deliveries) := by
  induction deliveries generalizing log with
  | nil => exact hlog
  | cons d ds ih =>
      have hd : logSorted (d.getD []) := hdel d (List.mem_cons_self d ds)
      have hds : ∀ dl ∈ ds, logSorted (dl.getD []) :=
        fun dl hm => hdel dl (List.mem_cons_of_mem d hm)
      exact ih (logMiddlewareStep log (.update d) st)
        (updateStep_sorted st log d hlog hd) hds

theorem logSorted_nodup_stateID {log : List LogEntry}
    (h : logSorted log) :
    (log.map (fun e => e._stateID)).Nodup := by
  show (log.map (fun e => e._stateID)).Pairwise (fun a b => a ≠ b)
  rw [List.pairwise_map]
  exact h.imp (fun hab => ne_of_lt hab)

/-- Claim C1: for every sequence of UPDATE deliveries of authority
log fragments (each fragment in strictly increasing stateID order),
however repeated or reordered relative to a client log that is
itself strictly increasing, the log after processing them contains
each stateID at most once and in strictly increasing order; each
UPDATE filters the incoming deltalog to entries whose stateID is
strictly greater than that of the last held entry (sentinel -1 when
the log is empty) and appends the remainder. -/
theorem update_deliveries_dedup (st : StoreState) (log : List LogEntry)
    (deliveries : List (Option (List LogEntry)))
    (hlog : logSorted log)
    (hdel : ∀ dl ∈ deliveries, logSorted (dl.getD [])) :
    logSorted (applyUpdateDeliveries st log deliveries) ∧
    ((applyUpdateDeliveries st log deliveries).map
      (fun e => e._stateID)).Nodup := by
  have h := applyUpdateDeliveries_sorted st log deliveries hlog hdel
  exact ⟨h, logSorted_nodup_stateID h⟩

theorem update_deliveries_dedup_witness :
    logSorted sampleLog ∧
    logSorted (applyUpdateDeliveries sampleStore sampleLog sampleDeliveries) ∧
    ((applyUpdateDeliveries sampleStore sampleLog sampleDeliveries).map
      (fun e => e._stateID)).Nodup :=
  ⟨by decide,
   (update_deliveries_dedup sampleStore sampleLog sampleDeliveries
     (by decide) (by decide)).1,
   (update_deliveries_dedup sampleStore sampleLog sampleDeliveries
     (by decide) (by decide)).2⟩

/-- Claim C2: in single-player mode (multiplayer option absent) with
no bound playerID, a dispatcher resolves the acting identity to
ctx.currentPlayer read from the store at that dispatch: the actions
built at two dispatches carry the respective current players, so if
the current player differs between the two dispatches the two
constructed actions carry different playerIDs. -/
theorem singleplayer_identity_at_dispatch (t1 t2 : StoreActionType)
    (name1 name2 : String) (args1 args2 : List String)
    (credentials : Option String) (s1 s2 : StoreState)
    (hdiff : s1.ctx.currentPlayer ≠ s2.ctx.currentPlayer) :
    actionPlayerID (dispatcherCall t1 name1 args1 s1 none credentials none)
      = some s1.ctx.currentPlayer ∧
    actionPlayerID (dispatcherCall t2 name2 args2 s2 none credentials none)
      = some s2.ctx.currentPlayer ∧
    actionPlayerID (dispatcherCall t1 name1 args1 s1 none credentials none)
      ≠ actionPlayerID
          (dispatcherCall t2 name2 args2 s2 none credentials none) := by
  cases t1 <;> cases t2 <;>
    simp [dispatcherCall, actionPlayerID, hdiff]

theorem singleplayer_identity_at_dispatch_witness :
    sampleStore.ctx.currentPlayer ≠ sampleStore1.ctx.currentPlayer ∧
    actionPlayerID
        (dispatcherCall .makeMove ("draw") [] sampleStore none none none)
      = some sampleStore.ctx.currentPlayer ∧
    actionPlayerID
        (dispatcherCall .makeMove ("draw") [] sampleStore1 none none none)
      = some sampleStore1.ctx.currentPlayer ∧
    actionPlayerID
        (dispatcherCall .makeMove ("draw") [] sampleStore none none none)
      ≠ actionPlayerID
          (dispatcherCall .makeMove ("draw") [] sampleStore1 none none none) :=
  ⟨by decide,
   (singleplayer_identity_at_dispatch .makeMove .makeMove ("draw") ("draw")
     [] [] none sampleStore sampleStore1 (by decide)).1,
   (singleplayer_identity_at_dispatch .makeMove .makeMove ("draw") ("draw")
     [] [] none sampleStore sampleStore1 (by decide)).2.1,
   (singleplayer_identity_at_dispatch .makeMove .makeMove ("draw") ("draw")
     [] [] none sampleStore sampleStore1 (by decide)).2.2⟩

/-- Claim C3: in the snapshot returned by getState, isActive is
false whenever ctx.gameover is set, regardless of mode and
identity; for a multiplayer client it is false whenever the
active-player predicate is false for the client identity; and a
single-player client with no bound playerID has isActive true
whenever ctx.gameover is unset, regardless of the predicate. -/
theorem active_player_gating (c : ClientModel) (state : StoreState)
    (hs : c.storeState = some state) :
    (state.ctx.gameover ≠ none →
      (getState c).map ClientSnapshot.isActive = some false) ∧
    (c.multiplayer ≠ none →
      c.game.flow.isPlayerActive state.G state.ctx c.playerID = false →
      (getState c).map ClientSnapshot.isActive = some false) ∧
    (c.multiplayer = none → c.playerID = none →
      state.ctx.gameover = none →
      (getState c).map ClientSnapshot.isActive = some true) := by
  refine ⟨?_, ?_, ?_⟩
  · intro hgo
    simp [getState, hs, hgo]
  · intro hmp hpred
    simp [getState, hs, hmp, hpred]
  · intro hmp hpid hgo
    simp [getState, hs, hmp, hpid, hgo]

theorem active_player_gating_witness :
    (getState { baseClient with storeState := some sampleStoreOver }).map
        ClientSnapshot.isActive = some false ∧
    (getState { baseClient with
        multiplayer := some MultiplayerSpec.boolTrue
        playerID := some ("1") }).map
        ClientSnapshot.isActive = some false ∧
    (getState baseClient).map ClientSnapshot.isActive = some true :=
  ⟨(active_player_gating { baseClient with
      storeState := some sampleStoreOver } sampleStoreOver rfl).1 (by decide),
   (active_player_gating { baseClient with
      multiplayer := some MultiplayerSpec.boolTrue
      playerID := some ("1") } sampleStore rfl).2.1 (by decide) (by decide),
   (active_player_gating baseClient sampleStore rfl).2.2 rfl rfl (by decide)⟩

/-- Claim C4: after a RESET action the client log is empty whatever
it held before, and a MAKE_MOVE or GAME_EVENT dispatched next
extends the log by exactly the deltalog the reducer emitted for
that one action, so the log afterwards equals that deltalog. -/
theorem reset_clears_then_move_appends (log : List LogEntry)
    (stR stM : StoreState) (t : String) (args : List String)
    (p cred : Option String) :
    logMiddlewareStep log .reset stR = [] ∧
    logMiddlewareStep (logMiddlewareStep log .reset stR)
        (.makeMove t args p cred) stM = stM.deltalog ∧
    logMiddlewareStep (logMiddlewareStep log .reset stR)
        (.gameEvent t args p cred) stM = stM.deltalog := by
  simp [logMiddlewareStep]

/-- Claim C5: registering listener A then B, then invoking the
handle returned by the registration of B, restores exactly the
notification chain of A alone: the chain after the unsubscribe
equals the chain after registering A, dispatch-time notification
still invokes A while B is no longer invoked, and each registration
wraps the previous chain, running the old chain before the new
listener. -/
theorem subscribe_unsubscribe_restores (c0 : ClientModel) (A B : Nat)
    (hBA : B ≠ A) (hB0 : B ∉ c0.subscribeCallback) :
    ((subscribe (subscribe c0 A).1 B).2.2
        (subscribe (subscribe c0 A).1 B).1).subscribeCallback
      = (subscribe c0 A).1.subscribeCallback ∧
    (subscribe c0 A).1.subscribeCallback
      = c0.subscribeCallback ++ [A] ∧
    (subscribe (subscribe c0 A).1 B).1.subscribeCallback
      = c0.subscribeCallback ++ [A] ++ [B] ∧
    A ∈ ((subscribe (subscribe c0 A).1 B).2.2
        (subscribe (subscribe c0 A).1 B).1).subscribeCallback ∧
    B ∉ ((subscribe (subscribe c0 A).1 B).2.2
        (subscribe (subscribe c0 A).1 B).1).subscribeCallback := by
  refine ⟨rfl, rfl, rfl, ?_, ?_⟩
  · simp [subscribe]
  · simp [subscribe, hB0, hBA]

theorem subscribe_unsubscribe_restores_witness :
    ((subscribe (subscribe baseClient 1).1 2).2.2
        (subscribe (subscribe baseClient 1).1 2).1).subscribeCallback
      = (subscribe baseClient 1).1.subscribeCallback ∧
    2 ∉ ((subscribe (subscribe baseClient 1).1 2).2.2
        (subscribe (subscribe baseClient 1).1 2).1).subscribeCallback :=
  ⟨(subscribe_unsubscribe_restores baseClient 1 2
      (by decide) (by decide)).1,
   (subscribe_unsubscribe_restores baseClient 1 2
      (by decide) (by decide)).2.2.2.2⟩

/-- Claim C6: for every action not flagged clientOnly the transport
middleware captures the store state before the reducer runs and,
after it has run, calls transport.onAction with exactly that
pre-action state paired with the action; for a clientOnly action it
does not call onAction; in both cases the result of the inner
dispatch is returned unchanged. -/
theorem transport_middleware_behavior {R : Type}
    (next : StoreState → DispatchedAction → StoreState × R)
    (calls : List (StoreState × DispatchedAction))
    (s : StoreState) (a : DispatchedAction) :
    (TransportMiddlewareStep calls next s a).1 = next s a ∧
    (a.clientOnly = false →
      (TransportMiddlewareStep calls next s a).2
        = calls ++ [(s, a)]) ∧
    (a.clientOnly = true →
      (TransportMiddlewareStep calls next s a).2 = calls) := by
  refine ⟨rfl, ?_, ?_⟩ <;> intro h <;>
    simp [TransportMiddlewareStep, h]

theorem transport_middleware_behavior_witness :
    (TransportMiddlewareStep []
        (fun (st : StoreState) (_ : DispatchedAction) => (st, (0 : Nat)))
        sampleStore { clientOnly := false, action := .reset }).2
      = [] ++ [(sampleStore,
          { clientOnly := false, action := ClientAction.reset })] ∧
    (TransportMiddlewareStep []
        (fun (st : StoreState) (_ : DispatchedAction) => (st, (0 : Nat)))
        sampleStore { clientOnly := true, action := .reset }).2
      = [] :=
  ⟨(transport_middleware_behavior
      (fun st _ => (st, (0 : Nat))) [] sampleStore
      { clientOnly := false, action := .reset }).2.1 rfl,
   (transport_middleware_behavior
      (fun st _ => (st, (0 : Nat))) [] sampleStore
      { clientOnly := true, action := .reset }).2.2 rfl⟩

theorem setupLocalMaster_reuse (lm0 : Option LocalMasterInst)
    (game f1 f2 : Nat) :
    (setupLocalMaster (setupLocalMaster lm0 game f1).2 game f2).1
      = (setupLocalMaster lm0 game f1).1 := by
  cases lm0 with
  | none => simp [setupLocalMaster]
  | some m =>
      by_cases h : m.config = game <;> simp [setupLocalMaster, h]

/-- Claim C7: two clients constructed with the local multiplayer
option against the identical game definition and session id share
one LocalMaster instance: the transport of the second constructed
client holds the very instance the first construction left in the
module-level slot, whatever fresh allocation tag the second
construction could have used, so the authority is never silently
duplicated per client. -/
theorem local_master_singleton (gid pid1 pid2 cred1 cred2 : Option String)
    (srv1 srv2 : Option String) (tg1 tg2 : Bool)
    (lm0 : Option LocalMasterInst) (game f1 f2 : Nat) :
    (constructClient gid pid2 cred2 (some (.spec true srv2 tg2))
        (constructClient gid pid1 cred1 (some (.spec true srv1 tg1))
          lm0 game f1).2 game f2).1.transport
      = (constructClient gid pid1 cred1 (some (.spec true srv1 tg1))
          lm0 game f1).1.transport := by
  simp [constructClient, selectTransport, normalizeMultiplayer,
    setupLocalMaster_reuse]

/-- Claim C8: constructing a client with a defined multiplayer
option matching none of the recognized shapes reports the error
through the logging channel and does not throw it: construction is
a total function that completes, leaving the default no-op
transport, an empty log, the dispatchers created, and the
module-level LocalMaster slot untouched. -/
theorem invalid_multiplayer_spec_reported (gid pid cred : Option String)
    (lm : Option LocalMasterInst) (game freshId : Nat) :
    (constructClient gid pid cred (some (.spec false none false))
        lm game freshId).1.transport = .defaultNoop ∧
    (constructClient gid pid cred (some (.spec false none false))
        lm game freshId).1.errors = ["invalid multiplayer spec"] ∧
    (constructClient gid pid cred (some (.spec false none false))
        lm game freshId).1.dispatchersCreated = true ∧
    (constructClient gid pid cred (some (.spec false none false))
        lm game freshId).1.log = [] ∧
    (constructClient gid pid cred (some (.spec false none false))
        lm game freshId).2 = lm := by
  simp [constructClient, selectTransport, normalizeMultiplayer]

/-- Claim C9: subscribe(fn) synchronously invokes the newly formed
chain once before returning: the previously registered chain runs
first and then fn, each listener receiving the snapshot getState()
currently returns, even though no action was dispatched between
registration and this invocation. -/
theorem subscribe_invokes_chain_synchronously (c : ClientModel)
    (fn : Nat) :
    (subscribe c fn).2.1
      = invokeChain c.subscribeCallback (getState c)
          ++ [(fn, getState c)] := by
  simp [subscribe, invokeChain, getState]

/-- Claim C10: updateCredentials stores the new credentials and
rebuilds both dispatcher sets bound to them, and changes nothing
else: it makes no call on the transport (unlike updatePlayerID and
updateGameID, which each make one), and the playerID, gameID,
store state and log of the client are unchanged. -/
theorem updateCredentials_frame (c : ClientModel)
    (cred p g : Option String) :
    (updateCredentials c cred).credentials = cred ∧
    (updateCredentials c cred).moves
      = { names := c.game.moveNames, playerID := c.playerID,
          credentials := cred, multiplayer := c.multiplayer } ∧
    (updateCredentials c cred).events
      = { names := c.game.flow.enabledEventNames,
          playerID := c.playerID, credentials := cred,
          multiplayer := c.multiplayer } ∧
    (updateCredentials c cred).playerID = c.playerID ∧
    (updateCredentials c cred).gameID = c.gameID ∧
    (updateCredentials c cred).storeState = c.storeState ∧
    (updateCredentials c cred).log = c.log ∧
    (updateCredentials c cred).subscribeCallback = c.subscribeCallback ∧
    (updateCredentials c cred).transportOps = c.transportOps ∧
    (updatePlayerID c p).transportOps
      = c.transportOps ++ [.updatePlayerID p] ∧
    (updateGameID c g).transportOps
      = c.transportOps ++ [.updateGameID g] := by
  simp [updateCredentials, updatePlayerID, updateGameID,
    createDispatchersOn]

end BGClient
